import Mathlib

/-!
Shallow embedding of the PyMesh parsers (pymesh/md5.py, pymesh/md5/{common,mesh,anim}.py,
pymesh/obj/{common,mesh}.py) together with theorems checking the natural-language
specification against the code.

Numeric file data is modelled with exact rationals (Python floats are a subset of ℚ and
the code performs only field operations on them); the single irrational operation,
`math.sqrt` inside `compute_quaternion_w`, produces a real number.  String handling
mirrors Python `str.split` / `str.strip` semantics on explicit character lists.
-/

namespace PyMesh

/-! ## Python string primitives -/

/-- Python `str.split(None)` on a character list: split on runs of whitespace,
dropping empty tokens. -/
def splitWSAux : List Char → List Char → List (List Char)
  | [], acc => if acc.isEmpty then [] else [acc.reverse]
  | c :: cs, acc =>
    if c.isWhitespace then
      if acc.isEmpty then splitWSAux cs [] else acc.reverse :: splitWSAux cs []
    else
      splitWSAux cs (c :: acc)

/-- Python `s.split()` (split on any whitespace, discard empties). -/
def pysplit (s : String) : List String :=
  (splitWSAux s.toList []).map List.asString

/-- Python `s.split(None, 1)`: first token, then the remainder with its leading
whitespace removed (trailing whitespace of the remainder is kept). -/
def pysplit1 (s : String) : List String :=
  let l := s.toList.dropWhile Char.isWhitespace
  if l.isEmpty then []
  else
    let tok := l.takeWhile (fun c => ¬ c.isWhitespace)
    let rest := (l.dropWhile (fun c => ¬ c.isWhitespace)).dropWhile Char.isWhitespace
    if rest.isEmpty then [tok.asString] else [tok.asString, rest.asString]

/-- Python `s.strip()`. -/
def pystrip (s : String) : String :=
  (((s.toList.dropWhile Char.isWhitespace).reverse.dropWhile Char.isWhitespace).reverse).asString

/-- Python `s.split('//')[0]`: the prefix of the line before the first `//`. -/
def dropLineComment : List Char → List Char
  | '/' :: '/' :: _ => []
  | c :: cs => c :: dropLineComment cs
  | [] => []

/-- Python `s[1:-1]` (used to strip the quotes of joint / shader names). -/
def pySlice1m1 (s : String) : String :=
  ((s.toList.drop 1).dropLast).asString

/-- Python `s.startswith('}')`. -/
def startsWithBrace (s : String) : Bool :=
  match s.toList with
  | c :: _ => c = '}'
  | [] => false

/-- Digits of a decimal literal, `none` if empty or a non-digit appears. -/
def parseDigits : List Char → Option ℕ
  | [] => none
  | l => l.foldl (fun acc c =>
      match acc with
      | none => none
      | some n => if c.isDigit then some (n * 10 + (c.toNat - '0'.toNat)) else none)
      (some 0)

/-- Python `int(s)`: optional surrounding whitespace and sign, then decimal digits. -/
def parseInt (s : String) : Option ℤ :=
  match (pystrip s).toList with
  | '-' :: rest => (parseDigits rest).map fun n => -(n : ℤ)
  | '+' :: rest => (parseDigits rest).map fun n => (n : ℤ)
  | l => (parseDigits l).map fun n => (n : ℤ)

/-- Fractional part `.d₁…dₖ` as a rational. -/
def parseFracDigits : List Char → Option ℚ
  | l =>
    if l.all Char.isDigit then
      some (((l.foldl (fun acc c => acc * 10 + (c.toNat - '0'.toNat)) (0 : ℕ) : ℕ) : ℚ) / (10 : ℚ) ^ l.length)
    else none

/-- Python `float(s)` restricted to plain decimal literals `[±]digits[.digits]`
(the only forms appearing in MD5/OBJ files; exponent forms are not modelled). -/
def parseFloat (s : String) : Option ℚ :=
  let core : List Char → Option ℚ := fun l =>
    match l.span (fun c => c ≠ '.') with
    | (intPart, []) => (parseDigits intPart).map fun n => (n : ℚ)
    | (intPart, _ :: fracPart) =>
      if intPart.isEmpty ∧ fracPart.isEmpty then none
      else
        match intPart, parseFracDigits fracPart with
        | [], some f => some f
        | ip, some f => (parseDigits ip).map fun n => (n : ℚ) + f
        | _, none => none
  match (pystrip s).toList with
  | '-' :: rest => (core rest).map Neg.neg
  | '+' :: rest => core rest
  | l => core l

/-- `map float` over a token list; the first unconvertible token raises `ValueError`. -/
def parseFloats : List String → Option (List ℚ)
  | [] => some []
  | t :: ts =>
    match parseFloat t, parseFloats ts with
    | some q, some qs => some (q :: qs)
    | _, _ => none

end PyMesh

/-! Quick sanity examples (concrete evaluation of the string model). -/

example : PyMesh.pysplit "MD5Version 10" = ["MD5Version", "10"] := by decide
example : PyMesh.pysplit "  a  bc " = ["a", "bc"] := by decide
example : PyMesh.pysplit1 "shader \"base\"" = ["shader", "\"base\""] := by decide
example : PyMesh.parseInt "-12" = some (-12) := by decide
example : PyMesh.parseFloat "7" = some 7 := by decide
example : (PyMesh.parseFloat "2.5").isSome = true := by decide
example : PyMesh.parseFloat "1.2.3" = none := by decide
example : PyMesh.parseFloat "x" = none := by decide
example : PyMesh.pystrip "  tri 0 1 2 // c " = "tri 0 1 2 // c" := by decide
example : (PyMesh.dropLineComment "ab // c".toList).asString = "ab " := by decide

namespace PyMesh

/-! ## Python exception model

Each constructor stands for the Python exception that the corresponding code path
raises; messages are abbreviated forms of the runtime's. -/

inductive PyErr : Type
  | valueError (msg : String)
  | attributeError (msg : String)
  | indexError
  | stopIteration
  | assertionError
  | zeroDivisionError
  | notImplementedError (msg : String)
  | ioUnmodelled (msg : String)
  deriving DecidableEq

/-! ## Vectors -/

/-- 3-float vector (exact-rational model). -/
abbrev Vec3 : Type := ℚ × ℚ × ℚ

/-- Componentwise sum (numpy vector `+`). -/
def vadd (a b : Vec3) : Vec3 := (a.1 + b.1, a.2.1 + b.2.1, a.2.2 + b.2.2)

/-- Scaling a vector by a scalar (numpy vector `*` float). -/
def vscale (s : ℚ) (a : Vec3) : Vec3 := (s * a.1, s * a.2.1, s * a.2.2)

/-- Componentwise difference. -/
def vsub (a b : Vec3) : Vec3 := (a.1 - b.1, a.2.1 - b.2.1, a.2.2 - b.2.2)

/-- Cross product of two 3-vectors. -/
def cross (a b : Vec3) : Vec3 :=
  (a.2.1 * b.2.2 - a.2.2 * b.2.1,
   a.2.2 * b.1 - a.1 * b.2.2,
   a.1 * b.2.1 - a.2.1 * b.1)

/-- Squared Euclidean norm; a vector is unit length iff its `sqNorm` is `1`. -/
def sqNorm (a : Vec3) : ℚ := a.1 * a.1 + a.2.1 * a.2.1 + a.2.2 * a.2.2

/-- Sum of a list of vectors (`numpy.sum(..., axis = 0)`). -/
def vsum (l : List Vec3) : Vec3 := l.foldr vadd (0, 0, 0)

end PyMesh

namespace Md5Common

/-- `pymesh/md5/common.py::compute_quaternion_w`:
`w = 1.0 - x**2 - y**2 - z**2; w = 0.0 if w < 0.0 else sqrt(w)`.
The intermediate `w` is exact rational arithmetic; the square root is real. -/
noncomputable def compute_quaternion_w (x y z : ℚ) : ℝ :=
  let w : ℚ := 1 - x ^ 2 - y ^ 2 - z ^ 2
  if w < 0 then 0 else Real.sqrt (w : ℝ)

end Md5Common

namespace Md5Py

/-- `pymesh/md5.py::compute_quaternion_w`:
`w = 1.0 - x*x - y*y - z*z; w = 0.0 if w < 0.0 else -sqrt(w)` —
same computation as the `md5/common.py` variant but with the opposite sign
convention on the square root. -/
noncomputable def compute_quaternion_w (x y z : ℚ) : ℝ :=
  let w : ℚ := 1 - x * x - y * y - z * z
  if w < 0 then 0 else -Real.sqrt (w : ℝ)

end Md5Py

open PyMesh

/-- **C1.** Quaternion W reconstruction, both parser variants
(`md5/common.py` and `md5.py`): whenever `x² + y² + z² > 1` the reconstructed
`w` is `0` in both variants; whenever `x² + y² + z² ≤ 1`, the reconstructed `w`
satisfies `w² = 1 − x² − y² − z²` exactly (the rational inputs model the float
inputs; exact equality implies the claim's float-tolerance form); and the two
variants agree up to sign: the `md5.py` result is the negation of the
`md5/common.py` result. -/
theorem quaternion_w_reconstruction (x y z : ℚ) :
    ((1 : ℚ) < x ^ 2 + y ^ 2 + z ^ 2 →
      Md5Common.compute_quaternion_w x y z = 0 ∧ Md5Py.compute_quaternion_w x y z = 0) ∧
    (x ^ 2 + y ^ 2 + z ^ 2 ≤ 1 →
      (Md5Common.compute_quaternion_w x y z) ^ 2 = ((1 - x ^ 2 - y ^ 2 - z ^ 2 : ℚ) : ℝ) ∧
      (Md5Py.compute_quaternion_w x y z) ^ 2 = ((1 - x ^ 2 - y ^ 2 - z ^ 2 : ℚ) : ℝ)) ∧
    Md5Py.compute_quaternion_w x y z = -Md5Common.compute_quaternion_w x y z := by
  have hsame : Md5Py.compute_quaternion_w x y z = -Md5Common.compute_quaternion_w x y z := by
    simp only [Md5Py.compute_quaternion_w, Md5Common.compute_quaternion_w,
      show x * x = x ^ 2 from (pow_two x).symm, show y * y = y ^ 2 from (pow_two y).symm,
      show z * z = z ^ 2 from (pow_two z).symm]
    by_cases hneg : (1 - x ^ 2 - y ^ 2 - z ^ 2 : ℚ) < 0
    · simp [hneg]
    · simp [hneg]
  refine ⟨fun h => ?_, fun h => ?_, hsame⟩
  · have hneg : (1 - x ^ 2 - y ^ 2 - z ^ 2 : ℚ) < 0 := by linarith
    have h0 : Md5Common.compute_quaternion_w x y z = 0 := by
      simp only [Md5Common.compute_quaternion_w]
      simp [hneg]
    exact ⟨h0, by rw [hsame, h0, neg_zero]⟩
  · have hge : ¬ ((1 - x ^ 2 - y ^ 2 - z ^ 2 : ℚ) < 0) := by
      push_neg
      linarith
    have hnn : (0 : ℝ) ≤ ((1 - x ^ 2 - y ^ 2 - z ^ 2 : ℚ) : ℝ) := by
      have h0 : (0 : ℚ) ≤ 1 - x ^ 2 - y ^ 2 - z ^ 2 := not_lt.mp hge
      exact_mod_cast h0
    have hc : Md5Common.compute_quaternion_w x y z
        = Real.sqrt ((1 - x ^ 2 - y ^ 2 - z ^ 2 : ℚ) : ℝ) := by
      simp only [Md5Common.compute_quaternion_w]
      simp [hge]
    refine ⟨by rw [hc]; exact Real.sq_sqrt hnn, ?_⟩
    rw [hsame, hc, neg_sq]
    exact Real.sq_sqrt hnn

/-- Witness for C1: concrete instantiations discharging each hypothesis.
At `(1,1,1)` the squared norm exceeds `1` and both variants return `0`;
at `(0,0,0)` the squared norm is `0 ≤ 1` and `w² = 1`. -/
theorem quaternion_w_reconstruction_check :
    Md5Common.compute_quaternion_w 1 1 1 = 0 ∧
    (Md5Py.compute_quaternion_w 0 0 0) ^ 2 = ((1 - 0 ^ 2 - 0 ^ 2 - 0 ^ 2 : ℚ) : ℝ) :=
  ⟨((quaternion_w_reconstruction 1 1 1).1 (by norm_num)).1,
   ((quaternion_w_reconstruction 0 0 0).2.1 (by norm_num)).2⟩

namespace Md5Py

/-! ## `md5.py::MD5_Mesh` derived data: skinning and normal generation

`generate_positions` and `generate_normals` are the inner functions of
`MD5_Mesh._process_mesh` (md5.py lines 409–491).  The quaternion rotation
`pyrr.quaternion.apply_to_vector` is an external collaborator (spec §1, §6:
`rotate_vector_by_quaternion(q, v) -> v`), so the embedding takes it as the
function parameter `rot` over an arbitrary quaternion type `Q`. -/

/-- `md5.py::MD5_Mesh.vert_layout` — `(tu, tv, weight_index, weights_elements)`.
Index fields are naturals: in a well-formed file they are non-negative
(spec §3 invariant `weight_start_index + weight_count ≤ len(weights)`). -/
structure MD5Vertex where
  tu : ℚ
  tv : ℚ
  weight_index : ℕ
  weights_elements : ℕ

/-- `md5.py::MD5_Mesh.weight_layout` — `(joint, weight, position)`. -/
structure MD5Weight where
  joint : ℕ
  weight : ℚ
  position : PyMesh.Vec3

/-- `md5.py::MD5_Mesh.joint_layout` — `(name, parent, position, orientation)`;
the orientation lives in the abstract quaternion type `Q`. -/
structure MD5Joint (Q : Type) where
  name : String
  parent : ℤ
  position : PyMesh.Vec3
  orientation : Q

/-- Out-of-range default for weight-list accesses (Python would raise; the
claims' hypotheses keep all accesses in bounds). -/
def defaultWeight : MD5Weight := ⟨0, 0, (0, 0, 0)⟩

/-- Out-of-range default for joint-list accesses. -/
def defaultJoint {Q : Type} [Inhabited Q] : MD5Joint Q := ⟨"", -1, (0, 0, 0), default⟩

/-- `md5.py::generate_positions.process_weight`:
`(joint.position + rotate(joint.orientation, weight.position)) * weight.weight`. -/
def process_weight {Q : Type} (rot : Q → PyMesh.Vec3 → PyMesh.Vec3)
    (w : MD5Weight) (j : MD5Joint Q) : PyMesh.Vec3 :=
  PyMesh.vscale w.weight (PyMesh.vadd j.position (rot j.orientation w.position))

/-- `md5.py::generate_positions` (lines 409–456): for `index` in
`range(vertex.weights_elements)`, look up `weights[vertex.weight_index + index]`
and `joints[weight.joint]`, apply `process_weight`, and sum the results
(`numpy.sum(positions, axis=0)`). -/
def generate_positions {Q : Type} [Inhabited Q] (rot : Q → PyMesh.Vec3 → PyMesh.Vec3)
    (vertex : MD5Vertex) (weights : List MD5Weight) (joints : List (MD5Joint Q)) :
    PyMesh.Vec3 :=
  PyMesh.vsum ((List.range vertex.weights_elements).map fun index =>
    process_weight rot (weights.getD (vertex.weight_index + index) defaultWeight)
      (joints.getD (weights.getD (vertex.weight_index + index) defaultWeight).joint
        defaultJoint))

/-- Modelled from the spec: `pyrr.vector.generate_normals(v1, v2, v3,
normalise_result=False)` is the external vector library's face-normal
computation (out of scope per spec §1/§6).  Per spec §4.5 it is "the cross
product of edge vectors" of the triangle, un-normalised, with the
winding-dependent sign fixed here as `cross (v2 − v1) (v3 − v1)`. -/
def face_normal (v1 v2 v3 : PyMesh.Vec3) : PyMesh.Vec3 :=
  PyMesh.cross (PyMesh.vsub v2 v1) (PyMesh.vsub v3 v1)

/-- One `normals[ tri[k] ] += normal` step of the accumulation loop. -/
def accumulate_at (normals : List PyMesh.Vec3) (i : ℕ) (n : PyMesh.Vec3) :
    List PyMesh.Vec3 :=
  normals.set i (PyMesh.vadd (normals.getD i (0, 0, 0)) n)

/-- `md5.py::generate_normals` (lines 458–491): per-triangle face normals, added
into each of the triangle's three vertices' running normal; the source then
executes `pyrr.vector.normalise( normals )` *without assigning the result* (the
collaborator contract, spec §6, is `normalize(v) -> v`, a pure function), so the
value returned is the list of un-normalised accumulated normals. -/
def generate_normals (verts : List PyMesh.Vec3) (tris : List (ℕ × ℕ × ℕ)) :
    List PyMesh.Vec3 :=
  let n := tris.map fun t =>
    face_normal (verts.getD t.1 (0, 0, 0)) (verts.getD t.2.1 (0, 0, 0))
      (verts.getD t.2.2 (0, 0, 0))
  let normals := (tris.zip n).foldl
    (fun acc tn =>
      accumulate_at (accumulate_at (accumulate_at acc tn.1.1 tn.2) tn.1.2.1 tn.2)
        tn.1.2.2 tn.2)
    (List.replicate verts.length (0, 0, 0))
  -- the source's `pyrr.vector.normalise( normals )` call: its result is discarded
  normals

end Md5Py

/-- `PyMesh.vadd` agrees with the product monoid's addition. -/
theorem pymesh_vadd_eq_add (a b : PyMesh.Vec3) : PyMesh.vadd a b = a + b := rfl

/-- `vsum` agrees with `List.sum` in the product monoid. -/
theorem vsum_eq_sum (l : List PyMesh.Vec3) : PyMesh.vsum l = l.sum := by
  induction l with
  | nil => rfl
  | cons x xs ih =>
    simp only [PyMesh.vsum, List.foldr_cons, List.sum_cons] at ih ⊢
    rw [ih, pymesh_vadd_eq_add]

/-- Sum of a mapped range as a `Finset` sum. -/
theorem vsum_range_eq_finset_sum (n : ℕ) (f : ℕ → PyMesh.Vec3) :
    PyMesh.vsum ((List.range n).map f) = ∑ j ∈ Finset.range n, f j := by
  rw [vsum_eq_sum]
  induction n with
  | zero => simp
  | succ m ih => rw [List.range_succ, List.map_append, List.sum_append, Finset.sum_range_succ, ih]; simp

/-- **C2.** Skinning (`md5.py::generate_positions`): for any rotation capability
`rot` (the external `pyrr.quaternion.apply_to_vector`), any vertex with at least
one weight, and any weight/joint lists, the derived position equals the sum over
`j < weight_count` of `(joint.position + rot(joint.orientation,
weight.local_position)) * weight.bias` with `weight = weights[start + j]`,
`joint = joints[weight.joint]`; and a vertex with exactly one weight of bias `1`
and zero local position (for a rotation sending `0` to `0`, as quaternion
rotation does) gets exactly its joint's position. -/
theorem md5_skinning_weighted_sum {Q : Type} [Inhabited Q]
    (rot : Q → PyMesh.Vec3 → PyMesh.Vec3) (v : Md5Py.MD5Vertex)
    (ws : List Md5Py.MD5Weight) (js : List (Md5Py.MD5Joint Q)) :
    (0 < v.weights_elements →
      Md5Py.generate_positions rot v ws js =
        ∑ j ∈ Finset.range v.weights_elements,
          PyMesh.vscale (ws.getD (v.weight_index + j) Md5Py.defaultWeight).weight
            (PyMesh.vadd
              (js.getD (ws.getD (v.weight_index + j) Md5Py.defaultWeight).joint
                Md5Py.defaultJoint).position
              (rot
                (js.getD (ws.getD (v.weight_index + j) Md5Py.defaultWeight).joint
                  Md5Py.defaultJoint).orientation
                (ws.getD (v.weight_index + j) Md5Py.defaultWeight).position))) ∧
    (v.weights_elements = 1 →
      (ws.getD v.weight_index Md5Py.defaultWeight).weight = 1 →
      (ws.getD v.weight_index Md5Py.defaultWeight).position = (0, 0, 0) →
      rot (js.getD (ws.getD v.weight_index Md5Py.defaultWeight).joint
            Md5Py.defaultJoint).orientation (0, 0, 0) = (0, 0, 0) →
      Md5Py.generate_positions rot v ws js =
        (js.getD (ws.getD v.weight_index Md5Py.defaultWeight).joint
          Md5Py.defaultJoint).position) := by
  constructor
  · intro _
    unfold Md5Py.generate_positions
    rw [vsum_range_eq_finset_sum]
    rfl
  · intro h1 hw hp hrot
    unfold Md5Py.generate_positions
    rw [h1]
    show PyMesh.vsum [Md5Py.process_weight rot _ _] = _
    unfold Md5Py.process_weight PyMesh.vsum
    rw [Nat.add_zero, hw, hp, hrot]
    obtain ⟨p1, p2, p3⟩ :=
      (js.getD (ws.getD v.weight_index Md5Py.defaultWeight).joint
        Md5Py.defaultJoint).position
    simp [PyMesh.vadd, PyMesh.vscale]

/-- Witness for C2: one joint at `(2,3,4)`, one weight of bias `1` with zero
local offset, identity rotation capability; the derived vertex position is
exactly the joint position. -/
theorem md5_skinning_weighted_sum_check :
    0 < (1 : ℕ) ∧
    Md5Py.generate_positions (fun (_ : Unit) p => p)
      ⟨0, 0, 0, 1⟩ [⟨0, 1, (0, 0, 0)⟩] [⟨"origin", -1, (2, 3, 4), ()⟩] = (2, 3, 4) :=
  ⟨Nat.one_pos,
   (md5_skinning_weighted_sum (fun (_ : Unit) p => p)
      ⟨0, 0, 0, 1⟩ [⟨0, 1, (0, 0, 0)⟩] [⟨"origin", -1, (2, 3, 4), ()⟩]).2
     rfl rfl rfl rfl⟩

/-- **C3.** Normal generation (`md5.py::generate_normals`): evaluated on a
submesh of one non-degenerate triangle with vertices `(0,0,0)`, `(2,0,0)`,
`(0,2,0)`, all three vertices do receive the same accumulated face normal
`(0,0,4)` — but it is NOT normalised to unit length (its squared norm is
`16 ≠ 1`): the source's `pyrr.vector.normalise(normals)` call at md5.py:489
discards its result, contradicting the claim (and the code's own comment
"normalise our normal vectors").  The claimed output would be `(0,0,1)`. -/
theorem md5_normals_left_unnormalised :
    Md5Py.generate_normals [(0, 0, 0), (2, 0, 0), (0, 2, 0)] [(0, 1, 2)]
      = [(0, 0, 4), (0, 0, 4), (0, 0, 4)] ∧
    PyMesh.sqNorm (0, 0, 4) = 16 ∧ (16 : ℚ) ≠ 1 := by
  refine ⟨?_, by norm_num [PyMesh.sqNorm], by norm_num⟩
  norm_num [Md5Py.generate_normals, Md5Py.face_normal, Md5Py.accumulate_at,
    PyMesh.cross, PyMesh.vsub, PyMesh.vadd, List.replicate, List.set]

namespace PyMesh

/-! ## MD5 statement lexer and block seeker -/

/-- One line of `process_md5_buffer`'s inner `md5_line` generator (md5.py lines
29–54, identical in md5/common.py): strip surrounding whitespace, drop
everything from `//` on, skip the line when nothing remains.  (Note the
comment-stripped prefix is *not* re-stripped, matching the source.) -/
def md5_lex_line (l : String) : Option String :=
  let t := pystrip l
  let c := (dropLineComment t.toList).asString
  if c.length = 0 then none else some c

/-- `process_md5_buffer` (md5.py lines 19–62): the lazy statement stream as a
list; end of the raw line list models EOF. -/
def process_md5_buffer (lines : List String) : List String :=
  lines.filterMap md5_lex_line

/-- `parse_to(buffer, keyword)` (md5.py lines 64–76): consume statements until
one whose first whitespace-delimited token equals `keyword`, returning that line
with the rest of the stream.  When the statement generator is exhausted its
`next()` raises `StopIteration` (the `line == ''` branch is unreachable for the
generator, which never yields empty lines). -/
def parse_to : List String → String → Except PyErr (String × List String)
  | [], _ => .error .stopIteration
  | l :: rest, kw =>
    if (pysplit l).headD "" = kw then .ok (l, rest) else parse_to rest kw

/-- The repeated header idiom `line = parse_to(buffer, kw); values =
line.split(None); int(values[1])` (md5.py anim header, lines 631–660). -/
def seekIntTok (buf : List String) (kw : String) : Except PyErr (ℤ × List String) :=
  match parse_to buf kw with
  | .error e => .error e
  | .ok (line, rest) =>
    match (pysplit line).get? 1 with
    | none => .error .indexError
    | some v =>
      match parseInt v with
      | none => .error (.valueError "invalid literal for int()")
      | some n => .ok (n, rest)

/-- As `seekIntTok` but with `line.split(None, 1)` (the md5/mesh.py header
idiom, lines 481–502). -/
def seekIntTok1 (buf : List String) (kw : String) : Except PyErr (ℤ × List String) :=
  match parse_to buf kw with
  | .error e => .error e
  | .ok (line, rest) =>
    match (pysplit1 line).get? 1 with
    | none => .error .indexError
    | some v =>
      match parseInt v with
      | none => .error (.valueError "invalid literal for int()")
      | some n => .ok (n, rest)

end PyMesh

namespace Md5Py

open PyMesh

/-! ## `md5.py::MD5_Anim` (lines 563–883) -/

/-- `MD5_Anim.joint_layout`: `(name, parent, num_components, frame)`. -/
structure AnimJoint where
  name : String
  parent : ℤ
  num_components : ℤ
  frame : ℤ
  deriving DecidableEq

/-- A bounds entry: `((minx,miny,minz), (maxx,maxy,maxz))`. -/
abbrev AnimBound : Type := Vec3 × Vec3

/-- A base-frame bone `((px,py,pz), (quat_w, qx, qy, qz))`. -/
structure AnimBaseBone where
  position : Vec3
  qw : ℝ
  qx : ℚ
  qy : ℚ
  qz : ℚ

/-- A per-frame bone `((px,py,pz), (quat_w, qx, qy, qz))`; components absent
from the line are the `None` sentinel, meaning "inherit from the base frame". -/
structure FrameBone where
  px : Option ℚ
  py : Option ℚ
  pz : Option ℚ
  qw : Option ℝ
  qx : Option ℚ
  qy : Option ℚ
  qz : Option ℚ

/-- The fields of an `MD5_Anim` object; `none` = the Python attribute is
`None`/unset. -/
structure MD5AnimState where
  md5_version : Option ℤ := none
  num_frames : Option ℤ := none
  num_joints : Option ℤ := none
  frame_rate : Option ℤ := none
  num_animated_components : Option ℤ := none
  hierarchy : Option (List AnimJoint) := none
  bounds : Option (List AnimBound) := none
  base_frame : Option (List AnimBaseBone) := none
  frames : Option (List (List FrameBone)) := none

/-- Fresh `MD5_Anim()` object. -/
def initAnim : MD5AnimState := {}

/-- `MD5_Anim._process_hierarchy.process_joint` (lines 676–700):
`"name" parent_index num_components frame_index`, quotes stripped off the
name. -/
def animProcessJoint (line : String) : Except PyErr AnimJoint :=
  match pysplit line with
  | [name, index, numC, frameI] =>
    match parseInt index, parseInt numC, parseInt frameI with
    | some i, some n, some f => .ok ⟨pySlice1m1 name, i, n, f⟩
    | _, _, _ => .error (.valueError "invalid literal for int()")
  | _ => .error (.valueError "unpack")

/-- `num_joints` iterations of `process_joint(buffer.next())`. -/
def animTakeJoints : ℕ → List String → Except PyErr (List AnimJoint × List String)
  | 0, buf => .ok ([], buf)
  | _ + 1, [] => .error .stopIteration
  | n + 1, l :: rest => do
    let j ← animProcessJoint l
    let (js, buf) ← animTakeJoints n rest
    .ok (j :: js, buf)

/-- `MD5_Anim._process_hierarchy` (lines 662–710) with `seek_to = True`. -/
def animProcessHierarchy (buf : List String) (numJoints : ℕ) :
    Except PyErr (List AnimJoint × List String) := do
  let (_, buf) ← parse_to buf "hierarchy"
  animTakeJoints numJoints buf

/-- `MD5_Anim._process_bounds.process_bounds` (lines 727–749):
`( minX minY minZ ) ( maxX maxY maxZ )`, ten tokens. -/
def animProcessBound (line : String) : Except PyErr AnimBound :=
  match pysplit line with
  | [_, x1, y1, z1, _, _, x2, y2, z2, _] =>
    match parseFloats [x1, y1, z1], parseFloats [x2, y2, z2] with
    | some [a, b, c], some [d, e, f] => .ok ((a, b, c), (d, e, f))
    | _, _ => .error (.valueError "could not convert string to float")
  | _ => .error (.valueError "unpack")

/-- `num_frames` iterations of `process_bounds(buffer.next())`. -/
def animTakeBounds : ℕ → List String → Except PyErr (List AnimBound × List String)
  | 0, buf => .ok ([], buf)
  | _ + 1, [] => .error .stopIteration
  | n + 1, l :: rest => do
    let b ← animProcessBound l
    let (bs, buf) ← animTakeBounds n rest
    .ok (b :: bs, buf)

/-- `MD5_Anim._process_bounds` (lines 712–759) with `seek_to = True`. -/
def animProcessBounds (buf : List String) (numFrames : ℕ) :
    Except PyErr (List AnimBound × List String) := do
  let (_, buf) ← parse_to buf "bounds"
  animTakeBounds numFrames buf

/-- `MD5_Anim._process_base_frame.process_bone` (lines 777–800):
`( xPos yPos zPos ) ( xOrient yOrient zOrient )`; `quat_w` is reconstructed
with `md5.py`'s `compute_quaternion_w`. -/
noncomputable def animProcessBaseBone (line : String) : Except PyErr AnimBaseBone :=
  match pysplit line with
  | [_, px, py, pz, _, _, qx, qy, qz, _] =>
    match parseFloats [px, py, pz, qx, qy, qz] with
    | some [a, b, c, x, y, z] => .ok ⟨(a, b, c), compute_quaternion_w x y z, x, y, z⟩
    | _ => .error (.valueError "could not convert string to float")
  | _ => .error (.valueError "unpack")

/-- `num_joints` iterations of the base-frame `process_bone(buffer.next())`. -/
noncomputable def animTakeBaseBones :
    ℕ → List String → Except PyErr (List AnimBaseBone × List String)
  | 0, buf => .ok ([], buf)
  | _ + 1, [] => .error .stopIteration
  | n + 1, l :: rest => do
    let b ← animProcessBaseBone l
    let (bs, buf) ← animTakeBaseBones n rest
    .ok (b :: bs, buf)

/-- `MD5_Anim._process_base_frame` (lines 761–810) with `seek_to = True`. -/
noncomputable def animProcessBaseFrame (buf : List String) (numJoints : ℕ) :
    Except PyErr (List AnimBaseBone × List String) := do
  let (_, buf) ← parse_to buf "baseframe"
  animTakeBaseBones numJoints buf

/-- Modelled from the spec: `utils.extract_tuple(values, 6, None)` lives in the
repository's `utils` module, which is not under src/.  Per the spec's Frame
description (§3: "unspecified trailing components defaulting to `None`/sentinel
meaning inherit from base frame"), it pads the parsed value list with the
`None` default out to the requested six entries. -/
def extract_tuple6 (vs : List ℚ) : List (Option ℚ) :=
  ((vs.map some) ++ List.replicate (6 - vs.length) none).take 6

/-- Python truthiness of a parsed float slot: `None` and `0.0` are falsy. -/
def truthy : Option ℚ → Bool
  | none => false
  | some v => v ≠ 0

/-- Core of `MD5_Anim._process_frame.process_bone` (lines 841–869) after the
`map(float, values)` conversion: pad to six slots and reconstruct `quat_w` only
when `quat_x and quat_y and quat_z` is truthy (all present *and* nonzero). -/
noncomputable def boneOfFloats (vs : List ℚ) : FrameBone :=
  let p := extract_tuple6 vs
  let g := fun i => p.getD i none
  { px := g 0, py := g 1, pz := g 2
    qw :=
      if truthy (g 3) && truthy (g 4) && truthy (g 5) then
        some (compute_quaternion_w ((g 3).getD 0) ((g 4).getD 0) ((g 5).getD 0))
      else none
    qx := g 3, qy := g 4, qz := g 5 }

/-- `MD5_Anim._process_frame.process_bone`: split, convert every token with
`float` (the first bad token raises `ValueError`), then `boneOfFloats`. -/
noncomputable def animProcessBone (line : String) : Except PyErr FrameBone :=
  match parseFloats (pysplit line) with
  | some vs => .ok (boneOfFloats vs)
  | none => .error (.valueError "could not convert string to float")

/-- The frame-block loop (lines 876–883): read bone lines until one starting
with `}`; an exhausted buffer raises `StopIteration`.  There is no length
check of any kind. -/
noncomputable def collectBones :
    List String → Except PyErr (List FrameBone × List String)
  | [] => .error .stopIteration
  | l :: rest =>
    if startsWithBrace l then .ok ([], rest)
    else do
      let b ← animProcessBone l
      let (bs, buf) ← collectBones rest
      .ok (b :: bs, buf)

/-- `MD5_Anim._process_frame` (lines 812–883) with `seek_to = True`. -/
noncomputable def animProcessFrame (buf : List String) :
    Except PyErr (List FrameBone × List String) := do
  let (_, buf) ← parse_to buf "frame"
  collectBones buf

/-- `num_frames` iterations of `_process_frame`. -/
noncomputable def animTakeFrames :
    ℕ → List String → Except PyErr (List (List FrameBone) × List String)
  | 0, buf => .ok ([], buf)
  | n + 1, buf => do
    let (f, buf') ← animProcessFrame buf
    let (fs, buf'') ← animTakeFrames n buf'
    .ok (f :: fs, buf'')

/-- `MD5_Anim._process_buffer` + `_process_header` (lines 605–660): the header
fields are assigned one by one; a version other than `10` triggers the `raise`
whose message formatting reads the non-existent class attribute `MD5.version`
and therefore aborts with `AttributeError` instead of the intended
`ValueError`.  Later stages assign `self.hierarchy`, `self.bounds`,
`self.base_frame`, `self.frames` as they complete; an error leaves the earlier
assignments in place. -/
noncomputable def animProcessBuffer (stmts : List String) :
    MD5AnimState × Except PyErr Unit :=
  match seekIntTok stmts "MD5Version" with
  | .error e => (initAnim, .error e)
  | .ok (ver, buf) =>
    let st : MD5AnimState := { initAnim with md5_version := some ver }
    if ver ≠ 10 then
      (st, .error (.attributeError "type object MD5 has no attribute version"))
    else
      match seekIntTok buf "numFrames" with
      | .error e => (st, .error e)
      | .ok (nf, buf) =>
        let st := { st with num_frames := some nf }
        match seekIntTok buf "numJoints" with
        | .error e => (st, .error e)
        | .ok (nj, buf) =>
          let st := { st with num_joints := some nj }
          match seekIntTok buf "frameRate" with
          | .error e => (st, .error e)
          | .ok (fr, buf) =>
            let st := { st with frame_rate := some fr }
            match seekIntTok buf "numAnimatedComponents" with
            | .error e => (st, .error e)
            | .ok (nc, buf) =>
              let st := { st with num_animated_components := some nc }
              match animProcessHierarchy buf nj.toNat with
              | .error e => (st, .error e)
              | .ok (h, buf) =>
                let st := { st with hierarchy := some h }
                match animProcessBounds buf nf.toNat with
                | .error e => (st, .error e)
                | .ok (b, buf) =>
                  let st := { st with bounds := some b }
                  match animProcessBaseFrame buf nj.toNat with
                  | .error e => (st, .error e)
                  | .ok (bf, buf) =>
                    let st := { st with base_frame := some bf }
                    match animTakeFrames nf.toNat buf with
                    | .error e => (st, .error e)
                    | .ok (fs, _) => ({ st with frames := some fs }, .ok ())

/-- `MD5_Anim.load_from_buffer` (lines 584–603): lex the raw lines, process; on
any exception clear *only* `num_frames`, `num_joints`, `frame_rate` and
`num_animated_components` (the source's except clause) and re-raise. -/
noncomputable def animLoadFromBuffer (raw : List String) :
    MD5AnimState × Except PyErr Unit :=
  let r := animProcessBuffer (process_md5_buffer raw)
  match r.2 with
  | .ok _ => (r.1, .ok ())
  | .error e =>
    ({ r.1 with num_frames := none, num_joints := none, frame_rate := none,
                num_animated_components := none }, .error e)

/-- Number of float components a frame bone line contributed (the slots that
are not the `None` padding; `quat_w` is derived, not collected). -/
def frameBoneComponents (b : FrameBone) : ℕ :=
  List.countP Option.isSome [b.px, b.py, b.pz, b.qx, b.qy, b.qz]

/-- Total float components collected for one frame block. -/
def frameComponents (f : List FrameBone) : ℕ :=
  (f.map frameBoneComponents).sum

end Md5Py

instance {e a : Type} [DecidableEq e] [DecidableEq a] : DecidableEq (Except e a) := fun x y =>
  match x, y with
  | .ok u, .ok v =>
    if h : u = v then isTrue (by rw [h]) else isFalse (fun c => h (by cases c; rfl))
  | .error u, .error v =>
    if h : u = v then isTrue (by rw [h]) else isFalse (fun c => h (by cases c; rfl))
  | .ok _, .error _ => isFalse (fun c => Except.noConfusion c)
  | .error _, .ok _ => isFalse (fun c => Except.noConfusion c)

/-- **C4 (amended).** The frame-block reader (`md5.py::MD5_Anim._process_frame`,
mirrored by `md5/anim.py::MD5_Frame._process_frame`) collects bone lines until
the first line starting with `}` and succeeds for *any* number of lines — it
takes no component count and performs no validation against
`numAnimatedComponents` (the source comments the value is "basically useless"). -/
theorem md5_anim_frame_reads_until_brace :
    ∀ (bs : List String) (parsed : List Md5Py.FrameBone) (rest : List String),
      List.Forall₂
        (fun l b => PyMesh.startsWithBrace l = false ∧ Md5Py.animProcessBone l = .ok b)
        bs parsed →
      Md5Py.collectBones (bs ++ "\x7d" :: rest) = .ok (parsed, rest) := by
  intro bs parsed rest h
  induction h with
  | nil =>
    have hb : PyMesh.startsWithBrace "\x7d" = true := by decide
    simp [Md5Py.collectBones, hb]
  | cons h1 _ ih =>
    simp only [List.cons_append, Md5Py.collectBones, h1.1, h1.2, Bool.false_eq_true,
      if_false, List.append_eq, ih]
    rfl

/-- Witness for C4's amended theorem: a frame block of two bone lines (twelve
float components) is collected unconditionally. -/
theorem md5_anim_frame_reads_until_brace_check :
    Md5Py.collectBones ["1 2 3 0 0 0", "4 5 6 0 0 0", "\x7d"]
      = .ok ([Md5Py.boneOfFloats [1, 2, 3, 0, 0, 0],
              Md5Py.boneOfFloats [4, 5, 6, 0, 0, 0]], []) :=
  md5_anim_frame_reads_until_brace ["1 2 3 0 0 0", "4 5 6 0 0 0"] _ []
    (.cons ⟨by decide, rfl⟩ (.cons ⟨by decide, rfl⟩ .nil))

/-- An MD5 anim file whose header declares `numAnimatedComponents 6` but whose
single frame block carries two bone lines — twelve float components. -/
def c4AnimFile : List String :=
  [ "MD5Version 10", "numFrames 1", "numJoints 1", "frameRate 24",
    "numAnimatedComponents 6",
    "hierarchy \x7b", "\"origin\" -1 6 0", "\x7d",
    "bounds \x7b", "( 0 0 0 ) ( 1 1 1 )", "\x7d",
    "baseframe \x7b", "( 0 0 0 ) ( 0 0 0 )", "\x7d",
    "frame 0 \x7b", "1 2 3 0 0 0", "4 5 6 0 0 0", "\x7d" ]

/-- **C4 (counterexample).** Loading `c4AnimFile` *succeeds* even though the
frame's collected component count is `12 ≠ 6 = numAnimatedComponents`; the claim
says a mismatching frame makes the whole load fail with a fatal
component-count-mismatch error, but no such validation exists in either parser
variant. -/
theorem md5_anim_component_mismatch_accepted :
    (Md5Py.animLoadFromBuffer c4AnimFile).2 = .ok () ∧
    (Md5Py.animLoadFromBuffer c4AnimFile).1.num_animated_components = some 6 ∧
    ((Md5Py.animLoadFromBuffer c4AnimFile).1.frames.getD []).map Md5Py.frameComponents
      = [12] ∧
    (12 : ℕ) ≠ 6 :=
  ⟨by decide, by decide, by decide, by decide⟩

/-- An MD5 anim file whose hierarchy, bounds and base frame parse fine, and
whose first frame block then fails (`float("oops")` raises `ValueError`). -/
def c6AnimFile : List String :=
  [ "MD5Version 10", "numFrames 1", "numJoints 1", "frameRate 24",
    "numAnimatedComponents 6",
    "hierarchy \x7b", "\"origin\" -1 6 0", "\x7d",
    "bounds \x7b", "( 0 0 0 ) ( 1 1 1 )", "\x7d",
    "baseframe \x7b", "( 0 0 0 ) ( 0 0 0 )", "\x7d",
    "frame 0 \x7b", "oops", "\x7d" ]

/-- **C6.** `md5.py::MD5_Anim.load_from_buffer` is *not* all-or-nothing: when
the frame block of `c6AnimFile` fails, the except clause clears only
`num_frames`, `num_joints`, `frame_rate` and `num_animated_components`;
`hierarchy`, `bounds` and `base_frame` keep their parsed values (and
`md5_version` stays set), so a partially-built model remains exposed to the
caller, contradicting the claim that every parsed-data field is reset to
`None`.  (The `md5/mesh.py` and `md5/anim.py` loaders do clear all the fields
the claim lists for them; the slip is this `md5.py` variant.) -/
theorem md5_anim_error_leaves_partial_state :
    (Md5Py.animLoadFromBuffer c6AnimFile).2
      = .error (.valueError "could not convert string to float") ∧
    (Md5Py.animLoadFromBuffer c6AnimFile).1.hierarchy = some [⟨"origin", -1, 6, 0⟩] ∧
    (Md5Py.animLoadFromBuffer c6AnimFile).1.bounds = some [((0, 0, 0), (1, 1, 1))] ∧
    (Md5Py.animLoadFromBuffer c6AnimFile).1.base_frame.isSome = true ∧
    (Md5Py.animLoadFromBuffer c6AnimFile).1.md5_version = some 10 ∧
    (Md5Py.animLoadFromBuffer c6AnimFile).1.frame_rate = none ∧
    (Md5Py.animLoadFromBuffer c6AnimFile).1.frames.isNone = true :=
  ⟨by decide, by decide, by decide, by decide, by decide, by decide, by decide⟩

/-- **C10.** In MD5 anim frame parsing (`process_bone`, identical in both
variants), the `quat_w` slot is `None` exactly when one of the three parsed
orientation components is missing (`None` padding) or equals `0.0` — i.e. `w`
is reconstructed only when `quat_x and quat_y and quat_z` is truthy; in
particular a line supplying all six components with orientation `x = 0.0`
still yields `w = None`. -/
theorem md5_frame_quaternion_w_sentinel :
    (∀ vs : List ℚ,
      ((Md5Py.boneOfFloats vs).qw.isNone = true ↔
        ((Md5Py.extract_tuple6 vs).getD 3 none = none ∨
         (Md5Py.extract_tuple6 vs).getD 3 none = some 0 ∨
         (Md5Py.extract_tuple6 vs).getD 4 none = none ∨
         (Md5Py.extract_tuple6 vs).getD 4 none = some 0 ∨
         (Md5Py.extract_tuple6 vs).getD 5 none = none ∨
         (Md5Py.extract_tuple6 vs).getD 5 none = some 0))) ∧
    (Md5Py.boneOfFloats [1, 2, 3, 0, 5, 6]).qw = none ∧
    (Md5Py.boneOfFloats [1, 2, 3, 0, 5, 6]).qx = some 0 ∧
    Md5Py.frameBoneComponents (Md5Py.boneOfFloats [1, 2, 3, 0, 5, 6]) = 6 := by
  refine ⟨?_, rfl, by decide, by decide⟩
  intro vs
  simp only [Md5Py.boneOfFloats]
  rcases h3 : (Md5Py.extract_tuple6 vs).getD 3 none with _ | v3 <;>
    rcases h4 : (Md5Py.extract_tuple6 vs).getD 4 none with _ | v4 <;>
      rcases h5 : (Md5Py.extract_tuple6 vs).getD 5 none with _ | v5 <;>
        simp [Md5Py.truthy, h3, h4, h5] <;>
          tauto

namespace Md5Mesh

open PyMesh

/-! ## `md5/mesh.py::MD5_Mesh` / `MD5_Joints` / `MD5_SubMesh` -/

/-- A joint of `MD5_Joints` (md5/mesh.py lines 253–374): name (quotes
stripped), parent index, position, orientation `(x, y, z, w)` with `w`
reconstructed by `md5/common.py`'s `compute_quaternion_w`. -/
structure MeshJoint where
  name : String
  parent : ℤ
  position : Vec3
  qx : ℚ
  qy : ℚ
  qz : ℚ
  qw : ℝ

/-- `MD5_SubMesh` storage (md5/mesh.py lines 12–250): vertex texture
coordinates / weight spans, triangles, and weight joint/bias/position arrays. -/
structure SubMesh where
  shader : String
  tcs : List (ℚ × ℚ)
  start_weights : List ℤ
  weight_counts : List ℤ
  tris : List (ℤ × ℤ × ℤ)
  joints : List ℤ
  biases : List ℚ
  positions : List Vec3

/-- Fields of an `MD5_Mesh` object (md5/mesh.py lines 423–428). -/
structure MD5MeshState where
  md5_version : Option ℤ := none
  joints : Option (List MeshJoint) := none
  meshes : Option (List SubMesh) := none

/-- `MD5_Joints._process_joints.process_joint` (lines 328–356):
`"name" parent ( px py pz ) ( qx qy qz )`, twelve tokens. -/
noncomputable def meshProcessJoint (line : String) : Except PyErr MeshJoint :=
  match pysplit line with
  | [name, parent, _, px, py, pz, _, _, qx, qy, qz, _] =>
    match parseInt parent, parseFloats [px, py, pz, qx, qy, qz] with
    | some i, some [a, b, c, x, y, z] =>
      .ok ⟨pySlice1m1 name, i, (a, b, c), x, y, z, Md5Common.compute_quaternion_w x y z⟩
    | _, _ => .error (.valueError "could not convert")
  | _ => .error (.valueError "unpack")

/-- `num_joints` iterations of `process_joint(buffer.next())`. -/
noncomputable def meshTakeJoints :
    ℕ → List String → Except PyErr (List MeshJoint × List String)
  | 0, buf => .ok ([], buf)
  | _ + 1, [] => .error .stopIteration
  | n + 1, l :: rest => do
    let j ← meshProcessJoint l
    let (js, buf) ← meshTakeJoints n rest
    .ok (j :: js, buf)

/-- `MD5_Joints._process_joints` (lines 307–374) with `seek_to = True`. -/
noncomputable def meshProcessJoints (buf : List String) (numJoints : ℕ) :
    Except PyErr (List MeshJoint × List String) := do
  let (_, buf) ← parse_to buf "joints"
  meshTakeJoints numJoints buf

/-- `MD5_SubMesh._process_vertices.process_vert` (lines 165–175):
`vert i ( tu tv ) start_weight weight_count`, eight tokens. -/
def meshProcessVert (line : String) : Except PyErr ((ℚ × ℚ) × ℤ × ℤ) :=
  match pysplit line with
  | [_, _, _, tu, tv, _, sw, wc] =>
    match parseFloat tu, parseFloat tv, parseInt sw, parseInt wc with
    | some u, some v, some s, some c => .ok ((u, v), s, c)
    | _, _, _, _ => .error (.valueError "could not convert")
  | _ => .error (.valueError "unpack")

/-- `MD5_SubMesh._process_triangles.process_tri` (lines 196–204):
`tri i v1 v2 v3`, five tokens. -/
def meshProcessTri (line : String) : Except PyErr (ℤ × ℤ × ℤ) :=
  match pysplit line with
  | [_, _, v1, v2, v3] =>
    match parseInt v1, parseInt v2, parseInt v3 with
    | some a, some b, some c => .ok (a, b, c)
    | _, _, _ => .error (.valueError "could not convert")
  | _ => .error (.valueError "unpack")

/-- `MD5_SubMesh._process_weights.process_weight` (lines 221–235):
`weight i joint bias ( px py pz )`, nine tokens. -/
def meshProcessWeight (line : String) : Except PyErr (ℤ × ℚ × Vec3) :=
  match pysplit line with
  | [_, _, joint, bias, _, px, py, pz, _] =>
    match parseInt joint, parseFloats [bias, px, py, pz] with
    | some j, some [b, a, c, d] => .ok (j, b, (a, c, d))
    | _, _ => .error (.valueError "could not convert")
  | _ => .error (.valueError "unpack")

/-- `count` iterations of a per-line parser over `buffer.next()`. -/
def takeLines {α : Type} (p : String → Except PyErr α) :
    ℕ → List String → Except PyErr (List α × List String)
  | 0, buf => .ok ([], buf)
  | _ + 1, [] => .error .stopIteration
  | n + 1, l :: rest => do
    let x ← p l
    let (xs, buf) ← takeLines p n rest
    .ok (x :: xs, buf)

/-- `MD5_SubMesh._process_mesh` (lines 139–250) with `seek_to = True`: seek
`mesh`, then shader (split(None,1), quotes stripped), `numverts` + vertex
lines, `numtris` + triangle lines, `numweights` + weight lines. -/
def meshProcessSubMesh (buf : List String) : Except PyErr (SubMesh × List String) := do
  let (_, buf) ← parse_to buf "mesh"
  let (shaderLine, buf) ← parse_to buf "shader"
  match (pysplit1 shaderLine).get? 1 with
  | none => .error .indexError
  | some quoted => do
    let (nv, buf) ← seekIntTok1 buf "numverts"
    let (verts, buf) ← takeLines meshProcessVert nv.toNat buf
    let (nt, buf) ← seekIntTok1 buf "numtris"
    let (tris, buf) ← takeLines meshProcessTri nt.toNat buf
    let (nw, buf) ← seekIntTok1 buf "numweights"
    let (weights, buf) ← takeLines meshProcessWeight nw.toNat buf
    .ok ({ shader := pySlice1m1 quoted
           tcs := verts.map (·.1)
           start_weights := verts.map (·.2.1)
           weight_counts := verts.map (·.2.2)
           tris := tris
           joints := weights.map (·.1)
           biases := weights.map (·.2.1)
           positions := weights.map (·.2.2) }, buf)

/-- `num_meshes` iterations of `MD5_SubMesh(buffer)`. -/
def meshTakeSubMeshes : ℕ → List String → Except PyErr (List SubMesh × List String)
  | 0, buf => .ok ([], buf)
  | n + 1, buf => do
    let (m, buf') ← meshProcessSubMesh buf
    let (ms, buf'') ← meshTakeSubMeshes n buf'
    .ok (m :: ms, buf'')

/-- `MD5_Mesh._process_buffer` (md5/mesh.py lines 477–512): header
(`MD5Version` — a value other than `10` triggers the `raise` whose message
formatting reads the non-existent class attribute `MD5.version` and so aborts
with `AttributeError` before `numJoints` is even sought — then `numJoints`,
`numMeshes`), joints, then the submeshes. -/
noncomputable def meshProcessBuffer (stmts : List String) : Except PyErr MD5MeshState := do
  let (ver, buf) ← seekIntTok1 stmts "MD5Version"
  if ver ≠ 10 then
    .error (.attributeError "type object MD5 has no attribute version")
  else do
    let (nj, buf) ← seekIntTok1 buf "numJoints"
    let (nm, buf) ← seekIntTok1 buf "numMeshes"
    let (js, buf) ← meshProcessJoints buf nj.toNat
    let (ms, _) ← meshTakeSubMeshes nm.toNat buf
    .ok { md5_version := some ver, joints := some js, meshes := some ms }

/-- `MD5_Mesh.load_from_buffer` (md5/mesh.py lines 458–475): on any exception
clear `md5_version`, `joints` and `meshes`, then re-raise. -/
noncomputable def meshLoadFromBuffer (raw : List String) :
    MD5MeshState × Except PyErr Unit :=
  match meshProcessBuffer (process_md5_buffer raw) with
  | .ok st => (st, .ok ())
  | .error e => ({ md5_version := none, joints := none, meshes := none }, .error e)

end Md5Mesh

/-- **C5.** A mesh file whose version line declares `MD5Version 9` aborts —
whatever follows the version line (so before any joints are parsed, and with
all parsed-data fields cleared) — but the abort is an `AttributeError`, not the
intended version-mismatch `ValueError`: the `raise` statement's message
formatting reads `MD5.version`, which does not exist (the class attribute is
`md5_version`), so the reported error carries neither the expected value `10`
nor the found value `9`.  (The `md5.py` header variants have the same
`MD5.version` typo.) -/
theorem md5_version_mismatch_attribute_error (rest : List String) :
    Md5Mesh.meshLoadFromBuffer ("MD5Version 9" :: rest)
      = ({ md5_version := none, joints := none, meshes := none },
         .error (.attributeError "type object MD5 has no attribute version")) := rfl

namespace ObjLoader

open PyMesh

/-! ## `obj/mesh.py::OBJ_Mesh` with `obj/common.py::OBJ_Loader.parse_statement`
and the statement loop of `obj/__init__.py::OBJ._parse_obj_mesh` -/

/-- Python `value.split('/')` — split on `/`, keeping empty pieces. -/
def splitSlashAux : List Char → List Char → List String
  | [], acc => [acc.reverse.asString]
  | '/' :: cs, acc => acc.reverse.asString :: splitSlashAux cs []
  | c :: cs, acc => splitSlashAux cs (c :: acc)

/-- Python `value.split('/')`. -/
def pySplitSlash (s : String) : List String := splitSlashAux s.toList []

/-- The `_create_mesh` dict (obj/mesh.py lines 216–235): `points` holds index
triples (`extend`ed), while `lines` and `faces` hold whole tuples of triples
(`append`ed). -/
structure Mesh where
  name : Option String := none
  groups : List String := ["default"]
  smoothing : Option ℤ := none
  material : Option String := none
  texture : Option String := none
  points : List (List (Option ℤ)) := []
  lines : List (List (List (Option ℤ))) := []
  faces : List (List (List (Option ℤ))) := []
  deriving DecidableEq

/-- A fresh `_create_mesh()` result. -/
def emptyMesh : Mesh := {}

/-- The `OBJ_Mesh` object state (obj/mesh.py lines 200–214).  Python's
`self._current_mesh` always aliases an element of `self.meshes` (both
`_ensure_current_mesh` and `_push_current_mesh` append the object they make
current), so it is modelled as an index into `meshes`.  Python `set`s are
modelled as duplicate-free lists in insertion order. -/
structure State where
  vertices : List (List ℚ) := []
  texture_coords : List (List ℚ) := []
  normals : List (List ℚ) := []
  names : List String := []
  groups : List String := []
  materials : List String := []
  textures : List String := []
  meshes : List Mesh := []
  shadow : Option String := none
  trace : Option String := none
  current : Option ℕ := none
  deriving DecidableEq

/-- A fresh `OBJ_Mesh()`. -/
def initObj : State := {}

/-- Python `set.add`. -/
def pySetAdd (s : List String) (v : String) : List String :=
  if v ∈ s then s else s ++ [v]

/-- Python `set.update`. -/
def pySetUpdate (s : List String) (vs : List String) : List String :=
  vs.foldl pySetAdd s

/-- `_ensure_current_mesh` (lines 240–250): if there is no current mesh,
create one and append it to the meshes list, making it current. -/
def ensure_current_mesh (s : State) : State :=
  match s.current with
  | some _ => s
  | none => { s with meshes := s.meshes ++ [emptyMesh], current := some s.meshes.length }

/-- `_current_mesh_has_data` (lines 252–273): a current mesh exists and has at
least one point, line or face. -/
def current_mesh_has_data (s : State) : Bool :=
  match s.current with
  | none => false
  | some i =>
    let m := s.meshes.getD i emptyMesh
    !m.points.isEmpty || !m.lines.isEmpty || !m.faces.isEmpty

/-- `_push_current_mesh` (lines 275–289): copy the current mesh, append the
copy and make it current.  (The `else` branch of the source assigns the
undefined name `_create_mesh` — a `NameError` — but is unreachable: every
caller pushes only under `_current_mesh_has_data()`, which requires a current
mesh.) -/
def push_current_mesh (s : State) : State :=
  match s.current with
  | some i =>
    { s with meshes := s.meshes ++ [s.meshes.getD i emptyMesh],
             current := some s.meshes.length }
  | none => s

/-- Mutation of the current mesh dict in place.  (Unreachable `none` case: the
handlers call it only after `_ensure_current_mesh`/`_push_current_mesh`.) -/
def set_current (s : State) (f : Mesh → Mesh) : State :=
  match s.current with
  | some i => { s with meshes := s.meshes.set i (f (s.meshes.getD i emptyMesh)) }
  | none => s

/-- The push-or-ensure prelude repeated verbatim in each of `_parse_o`,
`_parse_g`, `_parse_s`, `_parse_usemtl`, `_parse_usemap` (obj/mesh.py):
`if self._current_mesh_has_data(): self._push_current_mesh()
else: self._ensure_current_mesh()`. -/
def segmented (s : State) : State :=
  if current_mesh_has_data s then push_current_mesh s else ensure_current_mesh s

/-- `_convert_indice` (lines 337–360): `None` and `''` pass through as `None`;
a positive index is decremented (1-based → 0-based); a *negative* index is
resolved against `len(self.vertices)` — the vertex list — whatever slot it came
from; index `0` hits `assert False`. -/
def convert_indice (s : State) (v : Option String) : Except PyErr (Option ℤ) :=
  match v with
  | none => .ok none
  | some str =>
    if str = "" then .ok none
    else
      match parseInt str with
      | none => .error (.valueError "invalid literal for int()")
      | some value =>
        if 0 < value then .ok (some (value - 1))
        else if value < 0 then .ok (some ((s.vertices.length : ℤ) + value))
        else .error .assertionError

/-- `map(self._convert_indice, indices)`. -/
def convert_slots (s : State) : List (Option String) → Except PyErr (List (Option ℤ))
  | [] => .ok []
  | v :: vs => do
    let i ← convert_indice s v
    let is ← convert_slots s vs
    .ok (i :: is)

/-- `_convert_indices` (lines 362–390): split each `v/vt/vn` group on `/`, pad
to three slots with `None`, and resolve every slot with `_convert_indice`. -/
def convert_indices (s : State) : List String → Except PyErr (List (List (Option ℤ)))
  | [] => .ok []
  | value :: values => do
    let slots := (pySplitSlash value).map some
    let slots := slots ++ List.replicate (3 - slots.length) none
    let idx ← convert_slots s slots
    let rest ← convert_indices s values
    .ok (idx :: rest)

/-- `_parse_v` (lines 291–305).  When four components are present the source
computes `w = 1.0 / floats[3]` (raising `ZeroDivisionError` for `w == 0`) but
then multiplies by the literal `3`: `floats = [ value * 3 for value in
floats[:3] ]`. -/
def parse_v (s : State) (stmt : String) : Except PyErr State :=
  match pysplit1 stmt with
  | [_, rest] =>
    match parseFloats (pysplit rest) with
    | none => .error (.valueError "could not convert string to float")
    | some floats =>
      if floats.length = 4 then
        if floats.getD 3 0 = 0 then .error .zeroDivisionError
        else .ok { s with vertices := s.vertices ++ [(floats.take 3).map (· * 3)] }
      else .ok { s with vertices := s.vertices ++ [floats] }
  | _ => .error (.valueError "unpack")

/-- `_parse_vt` (lines 307–316). -/
def parse_vt (s : State) (stmt : String) : Except PyErr State :=
  match pysplit1 stmt with
  | [_, rest] =>
    match parseFloats (pysplit rest) with
    | none => .error (.valueError "could not convert string to float")
    | some floats => .ok { s with texture_coords := s.texture_coords ++ [floats] }
  | _ => .error (.valueError "unpack")

/-- `_parse_vn` (lines 318–335): with four components, divide the first three
by the fourth (`div = 1.0 / floats[3]`). -/
def parse_vn (s : State) (stmt : String) : Except PyErr State :=
  match pysplit1 stmt with
  | [_, rest] =>
    match parseFloats (pysplit rest) with
    | none => .error (.valueError "could not convert string to float")
    | some floats =>
      match floats with
      | [a, b, c, d] =>
        if d = 0 then .error .zeroDivisionError
        else .ok { s with normals := s.normals ++ [[a * (1 / d), b * (1 / d), c * (1 / d)]] }
      | fs => .ok { s with normals := s.normals ++ [fs] }
  | _ => .error (.valueError "unpack")

/-- `_parse_p` (lines 392–404): ensure a current mesh, resolve indices, extend
`points`. -/
def parse_p (s : State) (stmt : String) : Except PyErr State :=
  match pysplit1 stmt with
  | [_, rest] =>
    let s := ensure_current_mesh s
    do
      let idx ← convert_indices s (pysplit rest)
      .ok (set_current s fun m => { m with points := m.points ++ idx })
  | _ => .error (.valueError "unpack")

/-- `_parse_l` (lines 406–418): as `_parse_p` but `lines.append(tuple(indices))`. -/
def parse_l (s : State) (stmt : String) : Except PyErr State :=
  match pysplit1 stmt with
  | [_, rest] =>
    let s := ensure_current_mesh s
    do
      let idx ← convert_indices s (pysplit rest)
      .ok (set_current s fun m => { m with lines := m.lines ++ [idx] })
  | _ => .error (.valueError "unpack")

/-- `_parse_f` (lines 420–432): as `_parse_p` but `faces.append(tuple(indices))`. -/
def parse_f (s : State) (stmt : String) : Except PyErr State :=
  match pysplit1 stmt with
  | [_, rest] =>
    let s := ensure_current_mesh s
    do
      let idx ← convert_indices s (pysplit rest)
      .ok (set_current s fun m => { m with faces := m.faces ++ [idx] })
  | _ => .error (.valueError "unpack")

/-- `_parse_o` (lines 434–451): `type, value = statement.split()` (exactly two
tokens), push-or-ensure, set the mesh name, record it in `names`. -/
def parse_o (s : State) (stmt : String) : Except PyErr State :=
  match pysplit stmt with
  | [_, value] =>
    let s := if current_mesh_has_data s then push_current_mesh s else ensure_current_mesh s
    let s := set_current s fun m => { m with name := some value }
    .ok { s with names := pySetAdd s.names value }
  | _ => .error (.valueError "unpack")

/-- `_parse_g` (lines 453–477): zero arguments mean the `default` group;
push-or-ensure, overwrite the mesh's groups, record them. -/
def parse_g (s : State) (stmt : String) : Except PyErr State :=
  match pysplit stmt with
  | [] => .error .indexError
  | _ :: args =>
    let values := if args.isEmpty then ["default"] else args
    let s := if current_mesh_has_data s then push_current_mesh s else ensure_current_mesh s
    let s := set_current s fun m => { m with groups := values }
    .ok { s with groups := pySetUpdate s.groups values }

/-- `_parse_s` (lines 479–498): exactly two tokens; push-or-ensure; `off`/`0`
clear the smoothing group, anything else is `int()`-converted. -/
def parse_s (s : State) (stmt : String) : Except PyErr State :=
  match pysplit stmt with
  | [_, value] =>
    let s := if current_mesh_has_data s then push_current_mesh s else ensure_current_mesh s
    if value = "off" ∨ value = "0" then
      .ok (set_current s fun m => { m with smoothing := none })
    else
      match parseInt value with
      | none => .error (.valueError "invalid literal for int()")
      | some n => .ok (set_current s fun m => { m with smoothing := some n })
  | _ => .error (.valueError "unpack")

/-- Modelled from the spec: `process_filename_list` (obj/common.py lines
56–61) is `re.split(r'\W+\.\W+', values)`.  That pattern only matches a run of
non-word characters containing a dot, which a whitespace-separated list of
ordinary filenames never contains, so on the inputs the claims exercise the
call returns the whole string unsplit; material/texture file resolution is an
external collaborator (spec §1). -/
def process_filename_list (values : String) : List String := [values]

/-- `_parse_maplib` (lines 500–507). -/
def parse_maplib (s : State) (stmt : String) : Except PyErr State :=
  match pysplit1 stmt with
  | [_, values] => .ok { s with textures := pySetUpdate s.textures (process_filename_list values) }
  | _ => .error (.valueError "unpack")

/-- `_parse_usemap` (lines 509–525): `statement.split(None, 1)`;
push-or-ensure; set the mesh's texture. -/
def parse_usemap (s : State) (stmt : String) : Except PyErr State :=
  match pysplit1 stmt with
  | [_, value] =>
    let s := if current_mesh_has_data s then push_current_mesh s else ensure_current_mesh s
    .ok (set_current s fun m => { m with texture := some value })
  | _ => .error (.valueError "unpack")

/-- `_parse_mtllib` (lines 527–534). -/
def parse_mtllib (s : State) (stmt : String) : Except PyErr State :=
  match pysplit1 stmt with
  | [_, values] => .ok { s with materials := pySetUpdate s.materials (process_filename_list values) }
  | _ => .error (.valueError "unpack")

/-- `_parse_usemtl` (lines 536–552): `statement.split(None, 1)`;
push-or-ensure; set the mesh's material. -/
def parse_usemtl (s : State) (stmt : String) : Except PyErr State :=
  match pysplit1 stmt with
  | [_, value] =>
    let s := if current_mesh_has_data s then push_current_mesh s else ensure_current_mesh s
    .ok (set_current s fun m => { m with material := some value })
  | _ => .error (.valueError "unpack")

/-- `_parse_shadow_obj` (lines 559–564). -/
def parse_shadow_obj (s : State) (stmt : String) : Except PyErr State :=
  match pysplit stmt with
  | [_, value] => .ok { s with shadow := some value }
  | _ => .error (.valueError "unpack")

/-- `_parse_trace_obj` (lines 566–571). -/
def parse_trace_obj (s : State) (stmt : String) : Except PyErr State :=
  match pysplit stmt with
  | [_, value] => .ok { s with trace := some value }
  | _ => .error (.valueError "unpack")

/-- `_parse_call` (lines 554–557): `assert False` — the driver intercepts
`call` before dispatch, so reaching the handler is a programming error. -/
def parse_call (_ : State) (_ : String) : Except PyErr State :=
  .error .assertionError

/-- The keywords whose `_parse_*` methods exist and raise
`NotImplementedError('"%s" not supported')` (obj/mesh.py lines 573–740,
excluding `fo`, which redirects to `_parse_f`). -/
def objUnsupportedKeywords : List String :=
  ["csh", "vp", "cstype", "deg", "bmat", "step", "curv", "curv2", "surf",
   "parm", "trim", "hole", "scrv", "sp", "end", "con", "mg", "bevel",
   "c_interp", "d_interp", "lod", "ctech", "stech", "bsp", "bzp", "cdc",
   "res", "pl", "lp", "lq", "ld", "c"]

/-- Every keyword for which `getattr(self, '_parse_%s' % type)` finds a
method. -/
def objHandlerKeywords : List String :=
  objUnsupportedKeywords ++
    ["v", "vt", "vn", "p", "l", "f", "fo", "o", "g", "s", "maplib", "usemap",
     "mtllib", "usemtl", "shadow_obj", "trace_obj", "call"]

/-- Body shared by all the explicitly-unsupported `_parse_*` methods:
`raise NotImplementedError('"%s" not supported' % statement.split(None, 1)[0])`. -/
def raise_not_supported (_ : State) (stmt : String) : Except PyErr State :=
  .error (.notImplementedError ("\"" ++ (pysplit1 stmt).headD "" ++ "\" not supported"))

/-- The `getattr(self, '_parse_%s' % type, None)` lookup over `OBJ_Mesh`'s
methods. -/
def objHandler (ty : String) : Option (State → String → Except PyErr State) :=
  if ty ∈ objUnsupportedKeywords then some raise_not_supported
  else if ty = "v" then some parse_v
  else if ty = "vt" then some parse_vt
  else if ty = "vn" then some parse_vn
  else if ty = "p" then some parse_p
  else if ty = "l" then some parse_l
  else if ty = "f" then some parse_f
  else if ty = "fo" then some parse_f
  else if ty = "o" then some parse_o
  else if ty = "g" then some parse_g
  else if ty = "s" then some parse_s
  else if ty = "maplib" then some parse_maplib
  else if ty = "usemap" then some parse_usemap
  else if ty = "mtllib" then some parse_mtllib
  else if ty = "usemtl" then some parse_usemtl
  else if ty = "shadow_obj" then some parse_shadow_obj
  else if ty = "trace_obj" then some parse_trace_obj
  else if ty = "call" then some parse_call
  else none

/-- `OBJ_Loader.parse_statement` (obj/common.py lines 6–54): dispatch on the
first token; a keyword with no `_parse_*` method raises
`NotImplementedError('Command "%s" is unknown')`. -/
def parse_statement (s : State) (stmt : String) : Except PyErr State :=
  match pysplit stmt with
  | [] => .error .indexError
  | ty :: _ =>
    match objHandler ty with
    | some h => h s stmt
    | none => .error (.notImplementedError ("Command \"" ++ ty ++ "\" is unknown"))

/-- The statement loop of `OBJ._parse_obj_mesh` (obj/__init__.py lines
1432–1473): `call` is handled before dispatch (it opens another file — file
access is an external collaborator, spec §1/§6, and is not modelled); every
other statement goes through `try: data.parse_statement(line) except
NotImplementedError as e: print e` — the distinct not-implemented signal is
caught per statement and the loop continues; any other exception aborts. -/
def parse_obj_statements (s : State) : List String → Except PyErr State
  | [] => .ok s
  | line :: rest =>
    match pysplit line with
    | [] => .error .indexError
    | ty :: _ =>
      if ty = "call" then .error (.ioUnmodelled "call requires file access")
      else
        match parse_statement s line with
        | .ok s' => parse_obj_statements s' rest
        | .error (.notImplementedError _) => parse_obj_statements s rest
        | .error e => .error e

/-! Helper lemmas about the segmentation prelude shared by the o/g/s/usemtl/usemap
handlers. -/

theorem set_current_len (s : State) (f : Mesh → Mesh) :
    (set_current s f).meshes.length = s.meshes.length := by
  cases hc : s.current <;> simp [set_current, hc]

theorem set_current_cur (s : State) (f : Mesh → Mesh) :
    (set_current s f).current = s.current := by
  cases hc : s.current <;> simp [set_current, hc]

theorem seg_spec (s : State) :
    (current_mesh_has_data s = true →
      (segmented s).meshes.length = s.meshes.length + 1 ∧
      (segmented s).current = some s.meshes.length) ∧
    (current_mesh_has_data s = false → s.current.isSome = true → segmented s = s) ∧
    (s.current = none →
      (segmented s).meshes.length = s.meshes.length + 1 ∧
      (segmented s).current = some s.meshes.length) := by
  refine ⟨fun hd => ?_, fun hd hc => ?_, fun hc => ?_⟩
  · cases hc : s.current with
    | none => rw [current_mesh_has_data, hc] at hd; cases hd
    | some i => simp [segmented, hd, push_current_mesh, hc]
  · cases hc2 : s.current with
    | none => rw [hc2] at hc; cases hc
    | some i => simp [segmented, hd, ensure_current_mesh, hc2]
  · have hd : current_mesh_has_data s = false := by rw [current_mesh_has_data, hc]
    simp [segmented, hd, ensure_current_mesh, hc]

theorem parse_o_shape (s : State) (stmt : String) (s' : State)
    (h : parse_o s stmt = .ok s') :
    s'.meshes.length = (segmented s).meshes.length ∧ s'.current = (segmented s).current := by
  unfold parse_o at h
  rcases hsp : PyMesh.pysplit stmt with _ | ⟨ty, _ | ⟨v, _ | _⟩⟩ <;> rw [hsp] at h
  · exact Except.noConfusion h
  · exact Except.noConfusion h
  · injection h with h2
    subst h2
    refine ⟨?_, ?_⟩ <;> simp [set_current_len, set_current_cur, segmented]
  · exact Except.noConfusion h

theorem parse_g_shape (s : State) (stmt : String) (s' : State)
    (h : parse_g s stmt = .ok s') :
    s'.meshes.length = (segmented s).meshes.length ∧ s'.current = (segmented s).current := by
  unfold parse_g at h
  rcases hsp : PyMesh.pysplit stmt with _ | ⟨ty, args⟩ <;> rw [hsp] at h
  · exact Except.noConfusion h
  · injection h with h2
    subst h2
    refine ⟨?_, ?_⟩ <;> simp [set_current_len, set_current_cur, segmented]

theorem parse_s_shape (s : State) (stmt : String) (s' : State)
    (h : parse_s s stmt = .ok s') :
    s'.meshes.length = (segmented s).meshes.length ∧ s'.current = (segmented s).current := by
  unfold parse_s at h
  rcases hsp : PyMesh.pysplit stmt with _ | ⟨ty, _ | ⟨v, _ | _⟩⟩ <;> rw [hsp] at h
  · exact Except.noConfusion h
  · exact Except.noConfusion h
  · dsimp only at h
    by_cases hoff : v = "off" ∨ v = "0"
    · rw [if_pos hoff] at h
      injection h with h2
      subst h2
      refine ⟨?_, ?_⟩ <;> simp [set_current_len, set_current_cur, segmented]
    · rw [if_neg hoff] at h
      cases hpi : PyMesh.parseInt v <;> rw [hpi] at h
      · exact Except.noConfusion h
      · injection h with h2
        subst h2
        refine ⟨?_, ?_⟩ <;> simp [set_current_len, set_current_cur, segmented]
  · exact Except.noConfusion h

theorem parse_usemtl_shape (s : State) (stmt : String) (s' : State)
    (h : parse_usemtl s stmt = .ok s') :
    s'.meshes.length = (segmented s).meshes.length ∧ s'.current = (segmented s).current := by
  unfold parse_usemtl at h
  rcases hsp : PyMesh.pysplit1 stmt with _ | ⟨ty, _ | ⟨v, _ | _⟩⟩ <;> rw [hsp] at h
  · exact Except.noConfusion h
  · exact Except.noConfusion h
  · injection h with h2
    subst h2
    refine ⟨?_, ?_⟩ <;> simp [set_current_len, set_current_cur, segmented]
  · exact Except.noConfusion h

theorem parse_usemap_shape (s : State) (stmt : String) (s' : State)
    (h : parse_usemap s stmt = .ok s') :
    s'.meshes.length = (segmented s).meshes.length ∧ s'.current = (segmented s).current := by
  unfold parse_usemap at h
  rcases hsp : PyMesh.pysplit1 stmt with _ | ⟨ty, _ | ⟨v, _ | _⟩⟩ <;> rw [hsp] at h
  · exact Except.noConfusion h
  · exact Except.noConfusion h
  · injection h with h2
    subst h2
    refine ⟨?_, ?_⟩ <;> simp [set_current_len, set_current_cur, segmented]
  · exact Except.noConfusion h

end ObjLoader

/-- OBJ state after five `v` statements and two `vt` statements (vertex and
texture-coordinate contents are irrelevant to index resolution). -/
def c7State : ObjLoader.State :=
  { ObjLoader.initObj with vertices := List.replicate 5 [0, 0, 0],
                           texture_coords := List.replicate 2 [0, 0] }

/-- **C7.** OBJ index resolution: positive indices are shifted 1-based →
0-based and `f -1 -2 -3` after five vertices resolves to `(4, 3, 2)` — but a
negative index in the *texture-coordinate* (or normal) slot is also resolved
against `len(self.vertices)`: with 5 vertices and 2 texture coordinates,
the face group `1` slash `-1` resolves to `(0, 4, None)` where the claim (and the loader's own
docstring, "the currently specified list of vertices, texture coordinates or
normals") requires the vt slot to resolve to `2 + (-1) = 1`. -/
theorem obj_negative_index_uses_vertex_list :
    ObjLoader.convert_indices c7State ["1/-1"] = .ok [[some 0, some 4, none]] ∧
    ((c7State.texture_coords.length : ℤ) + (-1) = 1 ∧ (4 : ℤ) ≠ 1) ∧
    ObjLoader.convert_indices c7State ["-1", "-2", "-3"]
      = .ok [[some 4, none, none], [some 3, none, none], [some 2, none, none]] ∧
    c7State.vertices.length = 5 :=
  ⟨by decide, by decide, by decide, by decide⟩

/-- **C8 (counterexample).** On the initial loader state (no current submesh,
so in particular no current submesh "containing at least one point, line or
face"), the statement `o cube` *does* grow the meshes list from 0 to 1 —
`_ensure_current_mesh` creates a fresh mesh *and appends it to the list* —
refuting the claim that the number of submeshes does not increase whenever the
current submesh has no geometry. -/
theorem obj_metadata_statement_grows_mesh_list :
    ObjLoader.current_mesh_has_data ObjLoader.initObj = false ∧
    ObjLoader.initObj.current = none ∧
    ObjLoader.initObj.meshes.length = 0 ∧
    (ObjLoader.parse_o ObjLoader.initObj "o cube").map (fun s => s.meshes.length)
      = .ok 1 :=
  ⟨by decide, by decide, by decide, by decide⟩

/-- **C8 (amended).** For each of the `o`, `g`, `s`, `usemtl`, `usemap`
handlers: when the current submesh exists and has geometry, a new submesh (a
copy) is appended and made current; when the current submesh exists but has no
geometry, it is mutated in place and the number of submeshes does not
increase; when *no* current submesh exists, a fresh empty submesh is appended
(the count increases by one) and made current, then mutated. -/
theorem obj_mesh_segmentation_rule (s : ObjLoader.State) (stmt : String)
    (s' : ObjLoader.State)
    (h : ObjLoader.parse_o s stmt = .ok s' ∨ ObjLoader.parse_g s stmt = .ok s' ∨
         ObjLoader.parse_s s stmt = .ok s' ∨ ObjLoader.parse_usemtl s stmt = .ok s' ∨
         ObjLoader.parse_usemap s stmt = .ok s') :
    (ObjLoader.current_mesh_has_data s = true →
      s'.meshes.length = s.meshes.length + 1 ∧ s'.current = some s.meshes.length) ∧
    (ObjLoader.current_mesh_has_data s = false → s.current.isSome = true →
      s'.meshes.length = s.meshes.length ∧ s'.current = s.current) ∧
    (s.current = none →
      s'.meshes.length = s.meshes.length + 1 ∧ s'.current = some s.meshes.length) := by
  have hshape : s'.meshes.length = (ObjLoader.segmented s).meshes.length ∧
      s'.current = (ObjLoader.segmented s).current := by
    rcases h with h | h | h | h | h
    · exact ObjLoader.parse_o_shape s stmt s' h
    · exact ObjLoader.parse_g_shape s stmt s' h
    · exact ObjLoader.parse_s_shape s stmt s' h
    · exact ObjLoader.parse_usemtl_shape s stmt s' h
    · exact ObjLoader.parse_usemap_shape s stmt s' h
  obtain ⟨hs1, hs2, hs3⟩ := ObjLoader.seg_spec s
  refine ⟨fun hd => ?_, fun hd hc => ?_, fun hc => ?_⟩
  · exact ⟨hshape.1.trans (hs1 hd).1, hshape.2.trans (hs1 hd).2⟩
  · rw [hshape.1, hshape.2, hs2 hd hc]
    exact ⟨rfl, rfl⟩
  · exact ⟨hshape.1.trans (hs3 hc).1, hshape.2.trans (hs3 hc).2⟩

/-- A state holding one current, empty submesh. -/
def c8State : ObjLoader.State := { meshes := [ObjLoader.emptyMesh], current := some 0 }

/-- The result of `o cube` on `c8State`. -/
def c8Result : ObjLoader.State :=
  { meshes := [{ name := some "cube" }], current := some 0, names := ["cube"] }

/-- Witness for C8's amended theorem: with an existing geometry-free current
submesh, `o cube` mutates it in place — the mesh count stays 1 and the current
index is unchanged. -/
theorem obj_mesh_segmentation_rule_check :
    c8Result.meshes.length = c8State.meshes.length ∧ c8Result.current = c8State.current :=
  (obj_mesh_segmentation_rule c8State "o cube" c8Result (Or.inl (by decide))).2.1
    (by decide) (by decide)

/-- **C9.** `OBJ_Loader.parse_statement` (obj/common.py) raises the distinct
`NotImplementedError` signal for every recognized-but-unsupported keyword
(csh, vp, cstype, curv, mg, bevel, lod, …) and for every keyword with no
`_parse_*` handler at all (with the `Command "%s" is unknown` message), and
the statement loop of `OBJ._parse_obj_mesh` (obj/__init__.py) catches exactly
that signal per statement and continues with the next statement instead of
aborting the file. -/
theorem obj_unsupported_statement_signal :
    (∀ (s : ObjLoader.State) (stmt ty : String) (args : List String),
      PyMesh.pysplit stmt = ty :: args → ty ∈ ObjLoader.objUnsupportedKeywords →
      ∃ m, ObjLoader.parse_statement s stmt = .error (.notImplementedError m)) ∧
    (∀ (s : ObjLoader.State) (stmt ty : String) (args : List String),
      PyMesh.pysplit stmt = ty :: args → ty ∉ ObjLoader.objHandlerKeywords →
      ObjLoader.parse_statement s stmt
        = .error (.notImplementedError ("Command \"" ++ ty ++ "\" is unknown"))) ∧
    (∀ (s : ObjLoader.State) (stmt msg : String) (rest : List String),
      ObjLoader.parse_statement s stmt = .error (.notImplementedError msg) →
      ObjLoader.parse_obj_statements s (stmt :: rest)
        = ObjLoader.parse_obj_statements s rest) := by
  refine ⟨?_, ?_, ?_⟩
  · intro s stmt ty args hsp hmem
    refine ⟨"\"" ++ (PyMesh.pysplit1 stmt).headD "" ++ "\" not supported", ?_⟩
    unfold ObjLoader.parse_statement
    rw [hsp]
    dsimp only
    rw [ObjLoader.objHandler, if_pos hmem]
    rfl
  · intro s stmt ty args hsp hmem
    have hnone : ObjLoader.objHandler ty = none := by
      unfold ObjLoader.objHandler
      rw [if_neg fun hin => hmem (List.mem_append_left _ hin)]
      repeat rw [if_neg (fun e => hmem (by subst e; decide))]
    unfold ObjLoader.parse_statement
    rw [hsp]
    dsimp only
    rw [hnone]
  · intro s stmt msg rest h
    rcases hsp : PyMesh.pysplit stmt with _ | ⟨ty, args⟩
    · exfalso
      unfold ObjLoader.parse_statement at h
      rw [hsp] at h
      exact PyMesh.PyErr.noConfusion (Except.error.inj h)
    · by_cases hc : ty = "call"
      · exfalso
        unfold ObjLoader.parse_statement at h
        rw [hsp] at h
        subst hc
        dsimp only at h
        rw [show ObjLoader.objHandler "call" = some ObjLoader.parse_call from rfl] at h
        dsimp only [ObjLoader.parse_call] at h
        exact PyMesh.PyErr.noConfusion (Except.error.inj h)
      · conv_lhs => rw [ObjLoader.parse_obj_statements]
        rw [hsp]
        dsimp only
        rw [if_neg hc, h]

/-- Witness for C9: `curv` (recognized but unsupported) raises the
not-implemented signal; `foobar` (no handler) raises the distinct unknown
message; and the statement loop on `["curv 0 1", "v 1 2 3"]` continues exactly
as if the unsupported statement were absent. -/
theorem obj_unsupported_statement_signal_check :
    (∃ m, ObjLoader.parse_statement ObjLoader.initObj "curv 0 1"
        = .error (.notImplementedError m)) ∧
    ObjLoader.parse_statement ObjLoader.initObj "foobar 1"
      = .error (.notImplementedError ("Command \"foobar\" is unknown")) ∧
    ObjLoader.parse_obj_statements ObjLoader.initObj ["curv 0 1", "v 1 2 3"]
      = ObjLoader.parse_obj_statements ObjLoader.initObj ["v 1 2 3"] :=
  ⟨obj_unsupported_statement_signal.1 ObjLoader.initObj "curv 0 1" "curv" ["0", "1"]
      (by decide) (by decide),
   obj_unsupported_statement_signal.2.1 ObjLoader.initObj "foobar 1" "foobar" ["1"]
      (by decide) (by decide),
   obj_unsupported_statement_signal.2.2 ObjLoader.initObj "curv 0 1"
      "\"curv\" not supported" ["v 1 2 3"] (by decide)⟩
